import Mathlib

/-!
# Ledger core of `main.go` (rinha-de-backend-2024-q1)

A shallow embedding of `salvarTransacao`, `criarTransacao` and `criarExtrato`.

* Go `int64` values are `Int`s; every arithmetic result is passed through `wrap64`
  (two's-complement wrap-around), as Go does.
* The MySQL store is explicit state: the table `clientes` keyed by its primary key `id`,
  and the append-only table `transacoes`.
* Every store call that can return an error in the source takes its outcome from an
  `Ambiente` (fault oracle), so a failing `BeginTx`, `SELECT`, `INSERT`, `UPDATE` or
  `Commit` is an input of the model.
* A unit of work (`*sql.Tx`) has an explicit state (`EstadoTx`); its writes go to a working
  copy that replaces the committed store only on a successful `Commit`. A `Commit` that
  returns an error finishes the `Tx` without committing; a later `Rollback` on it returns
  `ErrTxDone` and does not reach the store.
* `ORDER BY realizada_em DESC` leaves the order of rows of equal `realizada_em` to the store:
  the order among them is an input of each query (`Ambiente.desempate`).
* Every store call is recorded in a trace (`List Op`), so that "the store is not touched"
  is a statement about the trace.
-/

namespace Rinha

/-! ## Machine integers -/

/-- Smallest `int64`. -/
def minInt64 : Int := -9223372036854775808

/-- Largest `int64`. -/
def maxInt64 : Int := 9223372036854775807

/-- Largest `uint64`. -/
def maxUint64 : Nat := 18446744073709551615

/-- Two's-complement wrap-around of a mathematical integer into `int64`. -/
def wrap64 (x : Int) : Int := (x + 9223372036854775808) % 18446744073709551616 - 9223372036854775808

/-- The value is representable as an `int64`. -/
def EmInt64 (x : Int) : Prop := minInt64 ≤ x ∧ x ≤ maxInt64

instance (x : Int) : Decidable (EmInt64 x) := by unfold EmInt64; infer_instance

/-! ## Constants of the source (`const (...)` block) -/

def minClientID : Nat := 1
def maxClientID : Nat := 5
def maxDescricaoLen : Nat := 10
def maxTransactions : Nat := 10

/-! ## Request / response types -/

/-- Go `TransactionRequest`. -/
structure TransactionRequest where
  valor : Int
  tipo : String
  descricao : String
  deriving DecidableEq, Repr

/-- Go `TransactionSuccessResponse`. -/
structure TransactionSuccessResponse where
  limite : Int
  saldo : Int
  deriving DecidableEq, Repr

/-- Go `Transacoes` (an entry of the statement). -/
structure Transacoes where
  valor : Int
  tipo : String
  descricao : String
  realizadaEm : Nat
  deriving DecidableEq, Repr

/-- Go `Saldo`. -/
structure Saldo where
  total : Int
  dataExtrato : Nat
  limite : Int
  deriving DecidableEq, Repr

/-- Go `Statement`. -/
structure Statement where
  saldo : Saldo
  ultimasTransacoes : List Transacoes
  deriving DecidableEq, Repr

/-- The errors `salvarTransacao` can return: the sentinel errors of the `var (...)` block and
the wrapped store errors built with `fmt.Errorf`. -/
inductive Erro where
  | limiteExcedido
  | clienteInvalido
  | valorInvalido
  | tipoInvalido
  | descricaoInvalida
  | erroIniciarTransacao
  | erroConsultarCliente
  | erroInserirTransacao
  | erroAtualizarSaldo
  | erroFinalizarTransacao
  deriving DecidableEq, Repr

deriving instance DecidableEq for Except

/-! ## The store -/

/-- A row of `clientes` without its key: `(saldo, limite)`. -/
structure Conta where
  saldo : Int
  limite : Int
  deriving DecidableEq, Repr

/-- A row of `transacoes`. `realizadaEm` is assigned by the store at insertion time. -/
structure Movimento where
  valor : Int
  tipo : String
  descricao : String
  realizadaEm : Nat
  clienteId : Nat
  deriving DecidableEq, Repr

/-- Committed contents of the database: `clientes` keyed by primary key, and `transacoes`
in insertion order. -/
structure Banco where
  clientes : Nat → Option Conta
  transacoes : List Movimento

/-- State of a unit of work (`*sql.Tx`): open; committed; rolled back; or finished by a
`Commit` that returned an error (nothing committed, and the `Tx` accepts no further call). -/
inductive EstadoTx where
  | aberta
  | confirmada
  | revertida
  | commitFalhou
  deriving DecidableEq, Repr

/-- Calls made on the store, in program order. -/
inductive Op where
  | conectar
  | beginTx
  | selectForUpdate (id : Nat)
  | insert (valor : Int) (tipo : String) (descricao : String) (id : Nat)
  | update (saldo : Int) (id : Nat)
  | commit
  | rollback
  | selectCliente (id : Nat)
  | selectTransacoes (id : Nat) (limite : Nat)
  deriving DecidableEq, Repr

/-- Outcomes of the store calls that the code cannot control: which calls return an error,
the clock of the store (`CURRENT_TIMESTAMP`) and of the server (`time.Now()`), and the key by
which the store orders the rows of equal `realizada_em` when it answers an `ORDER BY
realizada_em DESC` (smaller key first). -/
structure Ambiente where
  falhaConexao : Bool := false
  falhaBegin : Bool := false
  falhaSelect : Bool := false
  falhaInsert : Bool := false
  falhaUpdate : Bool := false
  falhaCommit : Bool := false
  falhaQuery : Bool := false
  falhaRows : Bool := false
  agoraBanco : Nat := 0
  agoraServidor : Nat := 0
  desempate : Movimento → Nat := fun _ => 0

/-- The store never fails. -/
def Ambiente.semFalhas (amb : Ambiente) : Prop :=
  amb.falhaConexao = false ∧ amb.falhaBegin = false ∧ amb.falhaSelect = false ∧
  amb.falhaInsert = false ∧ amb.falhaUpdate = false ∧ amb.falhaCommit = false ∧
  amb.falhaQuery = false ∧ amb.falhaRows = false

instance (amb : Ambiente) : Decidable amb.semFalhas := by
  unfold Ambiente.semFalhas; infer_instance

/-- `INSERT INTO transacoes (valor, tipo, descricao, cliente_id) VALUES (?, ?, ?, ?)`:
appends one row, stamped with the store clock. -/
def Banco.inserir (b : Banco) (agora : Nat) (t : TransactionRequest) (id : Nat) : Banco :=
  { b with transacoes := b.transacoes ++ [⟨t.valor, t.tipo, t.descricao, agora, id⟩] }

/-- `UPDATE clientes SET saldo = ? WHERE id = ?`. -/
def Banco.atualizarSaldo (b : Banco) (saldo : Int) (id : Nat) : Banco :=
  { b with clientes := fun i =>
      if i = id then (b.clientes i).map (fun c => { c with saldo := saldo }) else b.clientes i }

/-! ## `salvarTransacao` -/

/-- What a call of `salvarTransacao` leaves behind: the returned pair `(response, error)`,
the committed store, the state of the unit of work it began (`none` when `BeginTx` failed)
and the store calls it made. -/
structure Saida where
  resultado : Except Erro TransactionSuccessResponse
  banco : Banco
  tx : Option EstadoTx
  ops : List Op

/-- Go `tx.Rollback()`. On an open unit of work the rollback is sent to the store; on a
finished one the call returns `ErrTxDone` and nothing reaches the store. -/
def rollbackTx (tx : EstadoTx) (ops : List Op) : EstadoTx × List Op :=
  if tx = .aberta then (.revertida, ops ++ [.rollback]) else (tx, ops)

/-- The `defer func() { if err != nil { tx.Rollback() } }()` of `salvarTransacao`, run at
every `return` after `BeginTx` succeeded. `errLocal` tells whether the local variable `err`
is non-nil at that moment; it is the local variable, not the returned error, that the closure
reads. -/
def retornar (errLocal : Bool) (resultado : Except Erro TransactionSuccessResponse)
    (banco : Banco) (tx : EstadoTx) (ops : List Op) : Saida :=
  if errLocal then
    { resultado := resultado, banco := banco,
      tx := some (rollbackTx tx ops).1, ops := (rollbackTx tx ops).2 }
  else
    { resultado := resultado, banco := banco, tx := some tx, ops := ops }

/-- Go `salvarTransacao(ctx, db, transacao, clienteID)`. -/
def salvarTransacao (amb : Ambiente) (db : Banco) (transacao : TransactionRequest)
    (clienteID : Nat) : Saida :=
  -- tx, err := db.BeginTx(ctx, nil)
  if amb.falhaBegin then
    { resultado := .error .erroIniciarTransacao, banco := db, tx := none, ops := [.beginTx] }
  else
    let ops1 := [Op.beginTx, Op.selectForUpdate clienteID]
    -- err = tx.QueryRowContext(ctx, "SELECT saldo, limite ... FOR UPDATE", clienteID).Scan(..)
    if amb.falhaSelect then
      retornar true (.error .erroConsultarCliente) db .aberta ops1
    else
      match db.clientes clienteID with
      | none =>
        -- err is sql.ErrNoRows
        retornar true (.error .clienteInvalido) db .aberta ops1
      | some conta =>
        let saldoAtual := conta.saldo
        let limite := conta.limite
        -- the rest of the function, once novoSaldo is known
        let gravar (novoSaldo : Int) : Saida :=
          let ops2 := ops1 ++ [Op.insert transacao.valor transacao.tipo transacao.descricao clienteID]
          if amb.falhaInsert then
            retornar true (.error .erroInserirTransacao) db .aberta ops2
          else
            let visao1 := db.inserir amb.agoraBanco transacao clienteID
            let ops3 := ops2 ++ [Op.update novoSaldo clienteID]
            if amb.falhaUpdate then
              retornar true (.error .erroAtualizarSaldo) db .aberta ops3
            else
              let visao2 := visao1.atualizarSaldo novoSaldo clienteID
              let ops4 := ops3 ++ [Op.commit]
              if amb.falhaCommit then
                -- err = tx.Commit() is non-nil; Commit has finished the Tx
                retornar true (.error .erroFinalizarTransacao) db .commitFalhou ops4
              else
                retornar false (.ok { limite := limite, saldo := novoSaldo }) visao2
                  .confirmada ops4
        if transacao.tipo = "d" then
          let novoSaldo := wrap64 (saldoAtual - transacao.valor)
          if novoSaldo < wrap64 (-limite) then
            -- return TransactionSuccessResponse{}, ErrLimiteExcedido   (local err is nil)
            retornar false (.error .limiteExcedido) db .aberta ops1
          else gravar novoSaldo
        else if transacao.tipo = "c" then
          gravar (wrap64 (saldoAtual + transacao.valor))
        else
          -- return TransactionSuccessResponse{}, ErrTipoInvalido     (local err is nil)
          retornar false (.error .tipoInvalido) db .aberta ops1

/-! ## The HTTP boundary -/

/-- Loop of Go `strconv.ParseUint(s, 10, 64)` over the remaining characters, `n` being the
value read so far. A character that is not a decimal digit is a syntax error, a value above
`maxUint64` a range error; both are `none` (the callers only test `err != nil`). -/
def parseUintLoop : List Char → Nat → Option Nat
  | [], n => some n
  | c :: cs, n =>
    if '0' ≤ c ∧ c ≤ '9' then
      let d := c.toNat - '0'.toNat
      -- cutoff = maxUint64/10 + 1
      if n ≥ maxUint64 / 10 + 1 then none
      else
        let n1 := n * 10 + d
        if n1 > maxUint64 then none else parseUintLoop cs n1
    else none

/-- Go `strconv.ParseUint(s, 10, 64)`: the empty string is a syntax error. -/
def parseUint (s : String) : Option Nat :=
  if s = "" then none else parseUintLoop s.toList 0

/-- The request body as the handler sees it: `io.ReadAll` may fail, `json.Unmarshal` may
fail, or the body decodes to a `TransactionRequest`. -/
inductive Corpo where
  | ilegivel
  | malformado
  | json (t : TransactionRequest)
  deriving DecidableEq, Repr

/-- Body of an HTTP response: the text of a sentinel error, another fixed text, or an
encoded value. -/
inductive CorpoResposta where
  | erro (e : Erro)
  | texto (msg : String)
  | transacao (r : TransactionSuccessResponse)
  | extrato (s : Statement)
  deriving DecidableEq, Repr

/-- An HTTP response: status code and body. -/
structure Resposta where
  status : Nat
  corpo : CorpoResposta
  deriving DecidableEq, Repr

/-- What a handler leaves behind: the response, the committed store, the store calls made
(opening the connection included) and whether `salvarTransacao` was called. -/
structure SaidaHTTP where
  resposta : Resposta
  banco : Banco
  ops : List Op
  chamouSalvar : Bool

/-- Go `len(s)` of a string: its number of bytes in UTF-8. -/
def goLen (s : String) : Nat := s.utf8ByteSize

/-- Go `criarTransacao`, for the path variable `id` and the request body. -/
def criarTransacao (amb : Ambiente) (db : Banco) (id : String) (corpo : Corpo) : SaidaHTTP :=
  -- clienteID, err := strconv.ParseUint(parametros["id"], 10, 64)
  match parseUint id with
  | none => ⟨⟨404, .erro .clienteInvalido⟩, db, [], false⟩
  | some clienteID =>
    match corpo with
    | .ilegivel => ⟨⟨400, .texto "Erro ao ler requisição"⟩, db, [], false⟩
    | .malformado => ⟨⟨400, .texto "JSON inválido"⟩, db, [], false⟩
    | .json transacao =>
      if transacao.valor ≤ 0 then
        ⟨⟨422, .erro .valorInvalido⟩, db, [], false⟩
      else if transacao.tipo ≠ "d" ∧ transacao.tipo ≠ "c" then
        ⟨⟨422, .erro .tipoInvalido⟩, db, [], false⟩
      else if transacao.descricao = "" ∨ goLen transacao.descricao > maxDescricaoLen then
        ⟨⟨422, .erro .descricaoInvalida⟩, db, [], false⟩
      else if amb.falhaConexao then
        ⟨⟨500, .texto "Erro ao conectar ao banco de dados"⟩, db, [.conectar], false⟩
      else
        let r := salvarTransacao amb db transacao clienteID
        match r.resultado with
        | .error .limiteExcedido =>
          ⟨⟨422, .erro .limiteExcedido⟩, r.banco, .conectar :: r.ops, true⟩
        | .error .clienteInvalido =>
          ⟨⟨404, .erro .clienteInvalido⟩, r.banco, .conectar :: r.ops, true⟩
        | .error _ =>
          ⟨⟨500, .texto "Erro ao processar transação"⟩, r.banco, .conectar :: r.ops, true⟩
        | .ok resultado =>
          ⟨⟨200, .transacao resultado⟩, r.banco, .conectar :: r.ops, true⟩

/-- The order in which the store returns two rows for `ORDER BY realizada_em DESC`: the
newer one first; of two rows of equal `realizada_em`, which the query does not order, the one
of smaller key `d` first. -/
def Antes (d : Movimento → Nat) (x y : Movimento) : Prop :=
  y.realizadaEm < x.realizadaEm ∨ (y.realizadaEm = x.realizadaEm ∧ d x ≤ d y)

instance (d : Movimento → Nat) : DecidableRel (Antes d) :=
  fun x y => inferInstanceAs
    (Decidable (y.realizadaEm < x.realizadaEm ∨ (y.realizadaEm = x.realizadaEm ∧ d x ≤ d y)))

instance (d : Movimento → Nat) : IsTotal Movimento (Antes d) :=
  ⟨fun x y => by unfold Antes; omega⟩

instance (d : Movimento → Nat) : IsTrans Movimento (Antes d) :=
  ⟨fun x y z hxy hyz => by unfold Antes at *; omega⟩

/-- The rows of `transacoes` of one client (`WHERE cliente_id = ?`). -/
def Banco.doCliente (b : Banco) (id : Nat) : List Movimento :=
  b.transacoes.filter (fun m => m.clienteId = id)

/-- The rows of `transacoes` of one client in the order of `ORDER BY realizada_em DESC`, the
rows of equal `realizada_em` ordered by the key `d` of the store. -/
def Banco.porCliente (b : Banco) (d : Movimento → Nat) (id : Nat) : List Movimento :=
  (b.doCliente id).insertionSort (Antes d)

/-- `SELECT valor, tipo, descricao, realizada_em FROM transacoes WHERE cliente_id = ?
ORDER BY realizada_em DESC LIMIT ?`. -/
def Banco.ultimas (b : Banco) (d : Movimento → Nat) (id : Nat) (limite : Nat) :
    List Movimento :=
  (b.porCliente d id).take limite

/-- The columns scanned into a Go `Transacoes` value. -/
def Movimento.paraTransacoes (m : Movimento) : Transacoes :=
  ⟨m.valor, m.tipo, m.descricao, m.realizadaEm⟩

/-- Go `criarExtrato`, for the path variable `id`. -/
def criarExtrato (amb : Ambiente) (db : Banco) (id : String) : SaidaHTTP :=
  match parseUint id with
  | none => ⟨⟨404, .erro .clienteInvalido⟩, db, [], false⟩
  | some clienteID =>
    if amb.falhaConexao then
      ⟨⟨500, .texto "Erro ao conectar ao banco de dados"⟩, db, [.conectar], false⟩
    else
      let ops1 := [Op.conectar, Op.selectCliente clienteID]
      if amb.falhaSelect then
        ⟨⟨500, .texto "Erro ao consultar dados do cliente"⟩, db, ops1, false⟩
      else
        match db.clientes clienteID with
        | none => ⟨⟨404, .erro .clienteInvalido⟩, db, ops1, false⟩
        | some conta =>
          let saldo : Saldo := ⟨conta.saldo, amb.agoraServidor, conta.limite⟩
          let ops2 := ops1 ++ [Op.selectTransacoes clienteID maxTransactions]
          if amb.falhaQuery then
            ⟨⟨500, .texto "Erro ao consultar transações"⟩, db, ops2, false⟩
          else if amb.falhaRows then
            ⟨⟨500, .texto "Erro ao processar transações"⟩, db, ops2, false⟩
          else
            let transacoes :=
              (db.ultimas amb.desempate clienteID maxTransactions).map Movimento.paraTransacoes
            ⟨⟨200, .extrato ⟨saldo, transacoes⟩⟩, db, ops2, false⟩

/-! ## Sequences of calls -/

/-- One call of `salvarTransacao` with the behaviour of the store during it. -/
structure Chamada where
  amb : Ambiente
  transacao : TransactionRequest
  clienteID : Nat

/-- The committed store after a sequence of calls of `salvarTransacao`, one after another. -/
def executar : Banco → List Chamada → Banco
  | db, [] => db
  | db, ch :: resto => executar (salvarTransacao ch.amb db ch.transacao ch.clienteID).banco resto

/-- The pre-provisioned accounts (the five rows of the commented-out `criarTabelas`), all with
balance 0, and no movement. -/
def bancoInicial : Banco where
  clientes := fun i =>
    if i = 1 then some ⟨0, 100000⟩
    else if i = 2 then some ⟨0, 80000⟩
    else if i = 3 then some ⟨0, 1000000⟩
    else if i = 4 then some ⟨0, 10000000⟩
    else if i = 5 then some ⟨0, 500000⟩
    else none
  transacoes := []

/-- A store with the single account 1 of the given balance and limit, and no movement. -/
def bancoUm (saldo limite : Int) : Banco where
  clientes := fun i => if i = 1 then some ⟨saldo, limite⟩ else none
  transacoes := []

/-! ## Predicates of the specification -/

/-- Limit invariant: every account has `saldo ≥ -limite`. -/
def LimiteRespeitado (db : Banco) : Prop :=
  ∀ id c, db.clientes id = some c → c.saldo ≥ -c.limite

/-- Every limit is a non-negative `int64`. -/
def LimitesValidos (db : Banco) : Prop :=
  ∀ id c, db.clientes id = some c → 0 ≤ c.limite ∧ c.limite ≤ maxInt64

/-- The movement is one the boundary lets through: positive amount, kind `d` or `c`. -/
def MovimentoValido (t : TransactionRequest) : Prop :=
  0 < t.valor ∧ (t.tipo = "d" ∨ t.tipo = "c")

instance (t : TransactionRequest) : Decidable (MovimentoValido t) := by
  unfold MovimentoValido; infer_instance

/-- A credit on an existing account does not leave the `int64` range. -/
def CreditoCabe (db : Banco) (t : TransactionRequest) (id : Nat) : Prop :=
  t.tipo = "c" → ∀ c, db.clientes id = some c → c.saldo + t.valor ≤ maxInt64

/-- No credit of the sequence leaves the `int64` range, each one taken in the store state in
which it is applied. -/
def CreditosCabem : Banco → List Chamada → Prop
  | _, [] => True
  | db, ch :: resto =>
    CreditoCabe db ch.transacao ch.clienteID ∧
    CreditosCabem (salvarTransacao ch.amb db ch.transacao ch.clienteID).banco resto

/-! ## Concrete stores and calls used in the examples -/

/-- A credit of the largest `int64` followed by a credit of 1, both on account 1. -/
def chamadasEstouro : List Chamada :=
  [⟨{}, ⟨9223372036854775807, "c", "deposito"⟩, 1⟩, ⟨{}, ⟨1, "c", "deposito"⟩, 1⟩]

/-- Scenarios 1 to 3 of the specification on account 1: debit 500, debit 600, credit 700. -/
def chamadasCenario : List Chamada :=
  [⟨{}, ⟨500, "d", "compra"⟩, 1⟩, ⟨{}, ⟨600, "d", "compra"⟩, 1⟩, ⟨{}, ⟨700, "c", "salario"⟩, 1⟩]

/-- Account 1 with two movements stamped with the same instant, and one of account 2. -/
def bancoEmpate : Banco where
  clientes := fun i => if i = 1 then some ⟨300, 1000⟩ else if i = 2 then some ⟨5, 1000⟩ else none
  transacoes := [⟨100, "c", "a", 7, 1⟩, ⟨5, "c", "z", 7, 2⟩, ⟨200, "c", "b", 7, 1⟩]

/-- Account 1 with twelve movements stamped 1 to 12, and one movement of account 2. -/
def bancoDoze : Banco where
  clientes := fun i => if i = 1 then some ⟨78, 1000⟩ else if i = 2 then some ⟨5, 1000⟩ else none
  transacoes :=
    [⟨1, "c", "a", 1, 1⟩, ⟨2, "c", "b", 2, 1⟩, ⟨3, "c", "c", 3, 1⟩, ⟨5, "c", "z", 4, 2⟩,
     ⟨4, "c", "d", 4, 1⟩, ⟨5, "c", "e", 5, 1⟩, ⟨6, "c", "f", 6, 1⟩, ⟨7, "c", "g", 7, 1⟩,
     ⟨8, "c", "h", 8, 1⟩, ⟨9, "c", "i", 9, 1⟩, ⟨10, "c", "j", 10, 1⟩, ⟨11, "c", "k", 11, 1⟩,
     ⟨12, "c", "l", 12, 1⟩]

/-- A tie-break key of the store: smaller amount first. -/
def menorValorPrimeiro (m : Movimento) : Nat := m.valor.toNat

/-- Another tie-break key of the store: larger amount first. -/
def maiorValorPrimeiro (m : Movimento) : Nat := (1000 - m.valor).toNat

/-- The store call writes (`INSERT`, `UPDATE`) or commits. -/
def Op.escreve : Op → Bool
  | .insert _ _ _ _ => true
  | .update _ _ => true
  | .commit => true
  | _ => false

/-- The character is a decimal digit. -/
def ehDigito (c : Char) : Prop := '0' ≤ c ∧ c ≤ '9'

instance (c : Char) : Decidable (ehDigito c) := by unfold ehDigito; infer_instance

/-! ## Theorems -/


/-! ### Machine integers -/

theorem wrap64_eq_self {x : Int} (h : EmInt64 x) : wrap64 x = x := by
  unfold EmInt64 minInt64 maxInt64 at h
  unfold wrap64
  omega

theorem wrap64_em_int64 (x : Int) : EmInt64 (wrap64 x) := by
  unfold EmInt64 minInt64 maxInt64 wrap64
  omega

/-! ### The paths of `salvarTransacao` -/

/-- Every error return of `salvarTransacao` leaves the committed store as it was. -/
theorem salvar_erro_banco (amb : Ambiente) (db : Banco) (t : TransactionRequest) (id : Nat)
    (e : Erro) (h : (salvarTransacao amb db t id).resultado = .error e) :
    (salvarTransacao amb db t id).banco = db := by
  cases hb : amb.falhaBegin <;> cases hs : amb.falhaSelect <;> cases hi : amb.falhaInsert <;>
  cases hu : amb.falhaUpdate <;> cases hk : amb.falhaCommit <;> cases hc : db.clientes id <;>
  by_cases hd : t.tipo = "d" <;> by_cases hcr : t.tipo = "c" <;>
  simp [salvarTransacao, retornar, rollbackTx, hb, hs, hi, hu, hk, hc, hd, hcr] at h ⊢ <;>
  split_ifs at h ⊢ <;> simp_all

/-- A successful return of `salvarTransacao`: the account exists, no store call failed, the
new balance is the wrapped difference (debit, not below the negated limit) or the wrapped
sum (credit), one row was inserted and the balance updated, and the unit of work is
committed. -/
theorem salvar_ok_inv (amb : Ambiente) (db : Banco) (t : TransactionRequest) (id : Nat)
    (r : TransactionSuccessResponse) (h : (salvarTransacao amb db t id).resultado = .ok r) :
    ∃ conta, db.clientes id = some conta ∧ r.limite = conta.limite ∧
      ((t.tipo = "d" ∧ r.saldo = wrap64 (conta.saldo - t.valor) ∧
          ¬ r.saldo < wrap64 (-conta.limite)) ∨
       (t.tipo = "c" ∧ r.saldo = wrap64 (conta.saldo + t.valor))) ∧
      (salvarTransacao amb db t id).banco =
        (db.inserir amb.agoraBanco t id).atualizarSaldo r.saldo id ∧
      (salvarTransacao amb db t id).tx = some .confirmada := by
  cases hb : amb.falhaBegin <;> cases hs : amb.falhaSelect <;> cases hi : amb.falhaInsert <;>
  cases hu : amb.falhaUpdate <;> cases hk : amb.falhaCommit <;> cases hc : db.clientes id <;>
  by_cases hd : t.tipo = "d" <;> by_cases hcr : t.tipo = "c" <;>
  simp [salvarTransacao, retornar, rollbackTx, hb, hs, hi, hu, hk, hc, hd, hcr] at h ⊢
  all_goals try split_ifs at h ⊢
  all_goals try simp at h
  all_goals subst h
  all_goals simp_all

/-- A call of `salvarTransacao` either fails or succeeds. -/
theorem salvar_resultado_cases (amb : Ambiente) (db : Banco) (t : TransactionRequest)
    (id : Nat) :
    (∃ e, (salvarTransacao amb db t id).resultado = .error e) ∨
    (∃ r, (salvarTransacao amb db t id).resultado = .ok r) := by
  cases h : (salvarTransacao amb db t id).resultado with
  | error e => exact Or.inl ⟨e, rfl⟩
  | ok r => exact Or.inr ⟨r, rfl⟩

/-! ### C2: atomicity -/

/-- C2 (atomicity). Whatever the store does, if `salvarTransacao` returns an error (account
not found, limit exceeded, invalid kind, or a failure of `BeginTx`, of the locking read, of
the insert, of the update or of the commit), the committed store after the call is the store
before the call: the balance of the account is unchanged and the movement log has the same
entries, hence the same count. -/
theorem salvarTransacao_atomica (amb : Ambiente) (db : Banco) (t : TransactionRequest)
    (id : Nat) (e : Erro) (h : (salvarTransacao amb db t id).resultado = .error e) :
    (salvarTransacao amb db t id).banco = db ∧
    (salvarTransacao amb db t id).banco.clientes id = db.clientes id ∧
    (salvarTransacao amb db t id).banco.transacoes = db.transacoes ∧
    (salvarTransacao amb db t id).banco.transacoes.length = db.transacoes.length := by
  have hb := salvar_erro_banco amb db t id e h
  rw [hb]
  exact ⟨rfl, rfl, rfl, rfl⟩

/-- C2 at a failing commit: the debit of 500 on account 1 is inserted and the balance updated
inside the unit of work, the commit fails, and the committed store is the initial one. -/
theorem salvarTransacao_atomica_witness :
    (salvarTransacao { falhaCommit := true } bancoInicial ⟨500, "d", "compra"⟩ 1).resultado
      = .error .erroFinalizarTransacao ∧
    ((salvarTransacao { falhaCommit := true } bancoInicial ⟨500, "d", "compra"⟩ 1).banco
      = bancoInicial ∧
    (salvarTransacao { falhaCommit := true } bancoInicial ⟨500, "d", "compra"⟩ 1).banco.clientes 1
      = bancoInicial.clientes 1 ∧
    (salvarTransacao { falhaCommit := true } bancoInicial ⟨500, "d", "compra"⟩ 1).banco.transacoes
      = bancoInicial.transacoes ∧
    (salvarTransacao { falhaCommit := true } bancoInicial
      ⟨500, "d", "compra"⟩ 1).banco.transacoes.length = bancoInicial.transacoes.length) :=
  ⟨by decide,
   salvarTransacao_atomica { falhaCommit := true } bancoInicial ⟨500, "d", "compra"⟩ 1
     .erroFinalizarTransacao (by decide)⟩

/-! ### C9: exactly-once append and frame -/

/-- C9 (exactly-once append and frame). After a successful call of `salvarTransacao` on
account `id` with movement `t`, the movement log is the log before the call followed by
exactly one new row carrying the amount, kind and description of `t` and the account id
(every earlier row is unchanged); the row of account `id` keeps its limit and holds the
returned balance; the row of every other account is unchanged. -/
theorem salvarTransacao_acrescenta_um (amb : Ambiente) (db : Banco) (t : TransactionRequest)
    (id : Nat) (r : TransactionSuccessResponse)
    (h : (salvarTransacao amb db t id).resultado = .ok r) :
    (salvarTransacao amb db t id).banco.transacoes
      = db.transacoes ++ [⟨t.valor, t.tipo, t.descricao, amb.agoraBanco, id⟩] ∧
    (∃ c, db.clientes id = some c ∧ r.limite = c.limite ∧
      (salvarTransacao amb db t id).banco.clientes id = some ⟨r.saldo, c.limite⟩) ∧
    (∀ j, j ≠ id → (salvarTransacao amb db t id).banco.clientes j = db.clientes j) := by
  obtain ⟨conta, hc, hl, _, hb, _⟩ := salvar_ok_inv amb db t id r h
  rw [hb]
  refine ⟨rfl, ⟨conta, hc, hl, ?_⟩, ?_⟩
  · simp [Banco.atualizarSaldo, Banco.inserir, hc]
  · intro j hj
    simp [Banco.atualizarSaldo, Banco.inserir, hj]

/-- C9 at the debit of 500 on account 1 of the initial store. -/
theorem salvarTransacao_acrescenta_um_witness :
    (salvarTransacao {} bancoInicial ⟨500, "d", "compra"⟩ 1).resultado = .ok ⟨100000, -500⟩ ∧
    ((salvarTransacao {} bancoInicial ⟨500, "d", "compra"⟩ 1).banco.transacoes
      = bancoInicial.transacoes ++ [⟨500, "d", "compra", 0, 1⟩] ∧
    (∃ c, bancoInicial.clientes 1 = some c ∧ (100000 : Int) = c.limite ∧
      (salvarTransacao {} bancoInicial ⟨500, "d", "compra"⟩ 1).banco.clientes 1
        = some ⟨-500, c.limite⟩) ∧
    (∀ j, j ≠ 1 → (salvarTransacao {} bancoInicial ⟨500, "d", "compra"⟩ 1).banco.clientes j
      = bancoInicial.clientes j)) :=
  ⟨by decide,
   salvarTransacao_acrescenta_um {} bancoInicial ⟨500, "d", "compra"⟩ 1 ⟨100000, -500⟩
     (by decide)⟩

/-! ### C3: the reference rule -/

/-- The outcome of a credit on an existing account when no store call fails. -/
theorem salvar_credito (amb : Ambiente) (db : Banco) (t : TransactionRequest) (id : Nat)
    (c : Conta) (hs : amb.semFalhas) (hc : db.clientes id = some c) (ht : t.tipo = "c") :
    (salvarTransacao amb db t id).resultado = .ok ⟨c.limite, wrap64 (c.saldo + t.valor)⟩ := by
  obtain ⟨_, hb, hsel, hi, hu, hk, _, _⟩ := hs
  have hd : t.tipo ≠ "d" := by rw [ht]; decide
  simp [salvarTransacao, retornar, rollbackTx, hb, hsel, hi, hu, hk, hc, hd, ht]

/-- The outcome of a debit on an existing account when no store call fails. -/
theorem salvar_debito (amb : Ambiente) (db : Banco) (t : TransactionRequest) (id : Nat)
    (c : Conta) (hs : amb.semFalhas) (hc : db.clientes id = some c) (ht : t.tipo = "d") :
    (salvarTransacao amb db t id).resultado =
      if wrap64 (c.saldo - t.valor) < wrap64 (-c.limite) then .error .limiteExcedido
      else .ok ⟨c.limite, wrap64 (c.saldo - t.valor)⟩ := by
  obtain ⟨_, hb, hsel, hi, hu, hk, _, _⟩ := hs
  simp [salvarTransacao, retornar, rollbackTx, hb, hsel, hi, hu, hk, hc, ht]
  split_ifs <;> rfl

/-- The stored balance after a success is the returned balance, the limit is kept. -/
theorem salvar_ok_saldo (amb : Ambiente) (db : Banco) (t : TransactionRequest) (id : Nat)
    (r : TransactionSuccessResponse) (h : (salvarTransacao amb db t id).resultado = .ok r) :
    (salvarTransacao amb db t id).banco.clientes id = some ⟨r.saldo, r.limite⟩ := by
  obtain ⟨conta, hc, hl, _, hb, _⟩ := salvar_ok_inv amb db t id r h
  rw [hb, hl]
  simp [Banco.atualizarSaldo, Banco.inserir, hc]

/-- C3 (reference rule, amended). On an existing account with balance `b` and limit `l`
(a non-negative `int64`), when no store call fails: a credit of `a` whose sum `b + a` is
representable as `int64` succeeds and returns `(l, b + a)`; a debit of `a` whose difference
`b - a` is representable as `int64` succeeds and returns `(l, b - a)` if `b - a ≥ -l`, and
fails with `ErrLimiteExcedido`, leaving the store as it was, if `b - a < -l`; on success the
stored balance of the account is the returned one. -/
theorem salvarTransacao_regra (amb : Ambiente) (db : Banco) (t : TransactionRequest) (id : Nat)
    (b l : Int) (hs : amb.semFalhas) (hc : db.clientes id = some ⟨b, l⟩)
    (hl : 0 ≤ l ∧ l ≤ maxInt64) :
    (t.tipo = "c" → EmInt64 (b + t.valor) →
      (salvarTransacao amb db t id).resultado = .ok ⟨l, b + t.valor⟩ ∧
      (salvarTransacao amb db t id).banco.clientes id = some ⟨b + t.valor, l⟩) ∧
    (t.tipo = "d" → EmInt64 (b - t.valor) → b - t.valor ≥ -l →
      (salvarTransacao amb db t id).resultado = .ok ⟨l, b - t.valor⟩ ∧
      (salvarTransacao amb db t id).banco.clientes id = some ⟨b - t.valor, l⟩) ∧
    (t.tipo = "d" → EmInt64 (b - t.valor) → b - t.valor < -l →
      (salvarTransacao amb db t id).resultado = .error .limiteExcedido ∧
      (salvarTransacao amb db t id).banco = db) := by
  have hnl : wrap64 (-l) = -l := by
    apply wrap64_eq_self
    unfold maxInt64 at hl
    unfold EmInt64 minInt64 maxInt64
    omega
  refine ⟨?_, ?_, ?_⟩
  · intro ht hr
    have h := salvar_credito amb db t id ⟨b, l⟩ hs hc ht
    simp only [wrap64_eq_self hr] at h
    exact ⟨h, salvar_ok_saldo amb db t id _ h⟩
  · intro ht hr hge
    have h := salvar_debito amb db t id ⟨b, l⟩ hs hc ht
    simp only [wrap64_eq_self hr, hnl] at h
    rw [if_neg (by omega)] at h
    exact ⟨h, salvar_ok_saldo amb db t id _ h⟩
  · intro ht hr hlt
    have h := salvar_debito amb db t id ⟨b, l⟩ hs hc ht
    simp only [wrap64_eq_self hr, hnl] at h
    rw [if_pos hlt] at h
    exact ⟨h, salvar_erro_banco amb db t id _ h⟩

/-- C3 at scenarios 1 to 3, one after the other on an account with limit 1000 and balance 0:
the debit of 500 gives -500 (stated with the hypotheses and the whole conclusion of the rule);
the debit of 600 then fails with `ErrLimiteExcedido` and leaves the store as it was; the credit
of 700 then gives 200. -/
theorem salvarTransacao_regra_witness :
    (Ambiente.semFalhas {} ∧ (bancoUm 0 1000).clientes 1 = some ⟨0, 1000⟩ ∧
      ((0 : Int) ≤ 1000 ∧ (1000 : Int) ≤ maxInt64)) ∧
    (("d" = "c" → EmInt64 (0 + 500) →
      (salvarTransacao {} (bancoUm 0 1000) ⟨500, "d", "compra"⟩ 1).resultado
        = .ok ⟨1000, 0 + 500⟩ ∧
      (salvarTransacao {} (bancoUm 0 1000) ⟨500, "d", "compra"⟩ 1).banco.clientes 1
        = some ⟨0 + 500, 1000⟩) ∧
    ("d" = "d" → EmInt64 (0 - 500) → (0 : Int) - 500 ≥ -1000 →
      (salvarTransacao {} (bancoUm 0 1000) ⟨500, "d", "compra"⟩ 1).resultado
        = .ok ⟨1000, 0 - 500⟩ ∧
      (salvarTransacao {} (bancoUm 0 1000) ⟨500, "d", "compra"⟩ 1).banco.clientes 1
        = some ⟨0 - 500, 1000⟩) ∧
    ("d" = "d" → EmInt64 (0 - 500) → (0 : Int) - 500 < -1000 →
      (salvarTransacao {} (bancoUm 0 1000) ⟨500, "d", "compra"⟩ 1).resultado
        = .error .limiteExcedido ∧
      (salvarTransacao {} (bancoUm 0 1000) ⟨500, "d", "compra"⟩ 1).banco = bancoUm 0 1000)) ∧
    ((salvarTransacao {} (executar (bancoUm 0 1000) (chamadasCenario.take 1))
        ⟨600, "d", "compra"⟩ 1).resultado = .error .limiteExcedido ∧
      (salvarTransacao {} (executar (bancoUm 0 1000) (chamadasCenario.take 1))
        ⟨600, "d", "compra"⟩ 1).banco = executar (bancoUm 0 1000) (chamadasCenario.take 1)) ∧
    ((salvarTransacao {} (executar (bancoUm 0 1000) (chamadasCenario.take 2))
        ⟨700, "c", "salario"⟩ 1).resultado = .ok ⟨1000, -500 + 700⟩ ∧
      (salvarTransacao {} (executar (bancoUm 0 1000) (chamadasCenario.take 2))
        ⟨700, "c", "salario"⟩ 1).banco.clientes 1 = some ⟨-500 + 700, 1000⟩) :=
  ⟨⟨by decide, by decide, by decide⟩,
   salvarTransacao_regra {} (bancoUm 0 1000) ⟨500, "d", "compra"⟩ 1 0 1000
     (by decide) (by decide) (by decide),
   (salvarTransacao_regra {} (executar (bancoUm 0 1000) (chamadasCenario.take 1))
     ⟨600, "d", "compra"⟩ 1 (-500) 1000 (by decide) (by decide) (by decide)).2.2
     rfl (by decide) (by decide),
   (salvarTransacao_regra {} (executar (bancoUm 0 1000) (chamadasCenario.take 2))
     ⟨700, "c", "salario"⟩ 1 (-500) 1000 (by decide) (by decide) (by decide)).1
     rfl (by decide)⟩

/-- C3 as stated fails when the arithmetic leaves `int64`. A credit of 1 on a balance of
`maxInt64` returns the balance `minInt64`, not `maxInt64 + 1`; a debit of `maxInt64` on a
balance of -2 with limit 1000 has `b - a < -l` and yet succeeds, returning `maxInt64`. -/
theorem salvarTransacao_regra_estouro :
    ((salvarTransacao {} (bancoUm maxInt64 1000) ⟨1, "c", "x"⟩ 1).resultado
        = .ok ⟨1000, minInt64⟩ ∧
      (salvarTransacao {} (bancoUm maxInt64 1000) ⟨1, "c", "x"⟩ 1).resultado
        ≠ .ok ⟨1000, maxInt64 + 1⟩) ∧
    ((-2 : Int) - maxInt64 < -1000 ∧
      (salvarTransacao {} (bancoUm (-2) 1000) ⟨maxInt64, "d", "x"⟩ 1).resultado
        = .ok ⟨1000, maxInt64⟩ ∧
      (salvarTransacao {} (bancoUm (-2) 1000) ⟨maxInt64, "d", "x"⟩ 1).resultado
        ≠ .error .limiteExcedido) := by
  decide

/-- Scenarios 1 to 3 in sequence on an account with limit 1000 and balance 0: the debit of
500 gives -500; the debit of 600 then fails with `ErrLimiteExcedido` and the balance is still
-500; the credit of 700 then gives 200. -/
theorem cenarios_um_a_tres :
    (salvarTransacao {} (bancoUm 0 1000) ⟨500, "d", "compra"⟩ 1).resultado
      = .ok ⟨1000, -500⟩ ∧
    (salvarTransacao {} (executar (bancoUm 0 1000) (chamadasCenario.take 1))
      ⟨600, "d", "compra"⟩ 1).resultado = .error .limiteExcedido ∧
    (executar (bancoUm 0 1000) (chamadasCenario.take 2)).clientes 1 = some ⟨-500, 1000⟩ ∧
    (salvarTransacao {} (executar (bancoUm 0 1000) (chamadasCenario.take 2))
      ⟨700, "c", "salario"⟩ 1).resultado = .ok ⟨1000, 200⟩ ∧
    (executar (bancoUm 0 1000) chamadasCenario).clientes 1 = some ⟨200, 1000⟩ := by
  decide

/-! ### C1: the limit invariant -/

/-- One call of `salvarTransacao` with a valid movement whose credit stays within `int64`
keeps the limits valid and the limit invariant. -/
theorem salvar_preserva_limite (amb : Ambiente) (db : Banco) (t : TransactionRequest)
    (id : Nat) (hl : LimitesValidos db) (hinv : LimiteRespeitado db)
    (hv : MovimentoValido t) (hc : CreditoCabe db t id) :
    LimitesValidos (salvarTransacao amb db t id).banco ∧
    LimiteRespeitado (salvarTransacao amb db t id).banco := by
  rcases salvar_resultado_cases amb db t id with ⟨e, he⟩ | ⟨r, hr⟩
  · rw [salvar_erro_banco amb db t id e he]
    exact ⟨hl, hinv⟩
  · obtain ⟨conta, hconta, _, hcaso, hb, _⟩ := salvar_ok_inv amb db t id r hr
    have hlim := hl id conta hconta
    have hsaldo := hinv id conta hconta
    have hnovo : r.saldo ≥ -conta.limite := by
      rcases hcaso with ⟨_, _, hnao⟩ | ⟨htc, heq⟩
      · have hw : wrap64 (-conta.limite) = -conta.limite := by
          apply wrap64_eq_self
          unfold maxInt64 at hlim
          unfold EmInt64 minInt64 maxInt64
          omega
        rw [hw] at hnao
        omega
      · have hcabe := hc htc conta hconta
        have hpos := hv.1
        have hw : wrap64 (conta.saldo + t.valor) = conta.saldo + t.valor := by
          apply wrap64_eq_self
          unfold maxInt64 at hlim hcabe
          unfold EmInt64 minInt64 maxInt64
          omega
        rw [heq, hw]
        omega
    rw [hb]
    constructor
    · intro j c hj
      by_cases hji : j = id
      · subst hji
        simp [Banco.atualizarSaldo, Banco.inserir, hconta] at hj
        subst hj
        exact hlim
      · simp [Banco.atualizarSaldo, Banco.inserir, hji] at hj
        exact hl j c hj
    · intro j c hj
      by_cases hji : j = id
      · subst hji
        simp [Banco.atualizarSaldo, Banco.inserir, hconta] at hj
        subst hj
        exact hnovo
      · simp [Banco.atualizarSaldo, Banco.inserir, hji] at hj
        exact hinv j c hj

/-- The limits stay valid and the limit invariant holds along a sequence of calls. -/
theorem executar_preserva_limite (chs : List Chamada) :
    ∀ db : Banco, LimitesValidos db → LimiteRespeitado db →
      (∀ ch ∈ chs, MovimentoValido ch.transacao) → CreditosCabem db chs →
      LimitesValidos (executar db chs) ∧ LimiteRespeitado (executar db chs) := by
  induction chs with
  | nil =>
    intro db hl hinv _ _
    exact ⟨hl, hinv⟩
  | cons ch resto ih =>
    intro db hl hinv hv hc
    obtain ⟨hl1, hinv1⟩ := salvar_preserva_limite ch.amb db ch.transacao ch.clienteID hl hinv
      (hv ch (List.mem_cons_self _ _)) hc.1
    exact ih _ hl1 hinv1 (fun c hm => hv c (List.mem_cons_of_mem _ hm)) hc.2

theorem limitesValidos_bancoInicial : LimitesValidos bancoInicial := by
  intro id c h
  unfold bancoInicial at h
  simp only at h
  split_ifs at h <;> simp at h <;> subst h <;> decide

theorem limiteRespeitado_bancoInicial : LimiteRespeitado bancoInicial := by
  intro id c h
  unfold bancoInicial at h
  simp only at h
  split_ifs at h <;> simp at h <;> subst h <;> decide

/-- C1 (limit invariant, amended). Let every account of the store have a non-negative `int64`
limit and `saldo ≥ -limite`. After any sequence of calls of `salvarTransacao` (succeeding or
failing, whatever the store does) with movements of amount `> 0` and kind `d` or `c`, in
which no credit takes a balance above the largest `int64`, every account still has
`saldo ≥ -limite`. The one-call statement is the sequence of length one, and the states
reachable from the pre-provisioned store are the case `db = bancoInicial`. -/
theorem limite_respeitado_sempre (db : Banco) (chs : List Chamada)
    (hl : LimitesValidos db) (hinv : LimiteRespeitado db)
    (hv : ∀ ch ∈ chs, MovimentoValido ch.transacao) (hc : CreditosCabem db chs) :
    LimiteRespeitado (executar db chs) :=
  (executar_preserva_limite chs db hl hinv hv hc).2

/-- C1 on the pre-provisioned store and the sequence debit 500, debit 600, credit 700 on
account 1. -/
theorem limite_respeitado_sempre_witness :
    (LimitesValidos bancoInicial ∧ LimiteRespeitado bancoInicial ∧
      (∀ ch ∈ chamadasCenario, MovimentoValido ch.transacao) ∧
      CreditosCabem bancoInicial chamadasCenario) ∧
    LimiteRespeitado (executar bancoInicial chamadasCenario) :=
  have hv : ∀ ch ∈ chamadasCenario, MovimentoValido ch.transacao := by
    intro ch hm
    simp only [chamadasCenario, List.mem_cons, List.mem_singleton, List.not_mem_nil,
      or_false] at hm
    rcases hm with h | h | h <;> subst h <;> decide
  have hc : CreditosCabem bancoInicial chamadasCenario := by
    refine ⟨fun h => absurd h (by decide), fun h => absurd h (by decide), ?_, trivial⟩
    intro _ c hcl
    have h1 : (executar bancoInicial (chamadasCenario.take 2)).clientes 1 = some ⟨-1100, 100000⟩ := by
      decide
    have h2 : c = ⟨-1100, 100000⟩ := Option.some.inj (hcl.symm.trans h1)
    subst h2
    decide
  ⟨⟨limitesValidos_bancoInicial, limiteRespeitado_bancoInicial, hv, hc⟩,
   limite_respeitado_sempre bancoInicial chamadasCenario limitesValidos_bancoInicial
     limiteRespeitado_bancoInicial hv hc⟩

/-- C1 as stated fails by `int64` wrap-around: from the pre-provisioned store, a credit of
`maxInt64` and then a credit of 1 on account 1 (both of amount `> 0` and kind `c`) succeed and
leave the balance `minInt64`, which is below `-limite = -100000`. The state before the second
credit satisfies the invariant, the state after it does not. -/
theorem limite_violado_por_estouro :
    LimitesValidos bancoInicial ∧ LimiteRespeitado bancoInicial ∧
    (∀ ch ∈ chamadasEstouro, MovimentoValido ch.transacao) ∧
    (executar bancoInicial (chamadasEstouro.take 1)).clientes 1 = some ⟨maxInt64, 100000⟩ ∧
    (executar bancoInicial chamadasEstouro).clientes 1 = some ⟨minInt64, 100000⟩ ∧
    ¬ LimiteRespeitado (executar bancoInicial chamadasEstouro) := by
  refine ⟨limitesValidos_bancoInicial, limiteRespeitado_bancoInicial, ?_, by decide, by decide,
    ?_⟩
  · intro ch hm
    simp only [chamadasEstouro, List.mem_cons, List.mem_singleton, List.not_mem_nil,
      or_false] at hm
    rcases hm with h | h <;> subst h <;> decide
  · intro h
    have h1 := h 1 ⟨minInt64, 100000⟩ (by decide)
    revert h1
    decide

/-! ### C4: the unit of work at return -/

set_option maxHeartbeats 1600000 in
/-- State of the unit of work at each return of `salvarTransacao`: committed on success;
none begun when `BeginTx` fails; left open when the call returns `ErrLimiteExcedido` or
`ErrTipoInvalido` (the local `err` is nil there, so the deferred closure does not roll back);
finished without commit when `Commit` fails; rolled back on every other error. -/
theorem salvar_tx_estado (amb : Ambiente) (db : Banco) (t : TransactionRequest) (id : Nat) :
    (∀ r, (salvarTransacao amb db t id).resultado = .ok r →
      (salvarTransacao amb db t id).tx = some .confirmada) ∧
    ((salvarTransacao amb db t id).resultado = .error .erroIniciarTransacao →
      (salvarTransacao amb db t id).tx = none) ∧
    ((salvarTransacao amb db t id).resultado = .error .limiteExcedido →
      (salvarTransacao amb db t id).tx = some .aberta) ∧
    ((salvarTransacao amb db t id).resultado = .error .tipoInvalido →
      (salvarTransacao amb db t id).tx = some .aberta) ∧
    ((salvarTransacao amb db t id).resultado = .error .erroFinalizarTransacao →
      (salvarTransacao amb db t id).tx = some .commitFalhou ∧
      Op.rollback ∉ (salvarTransacao amb db t id).ops) ∧
    (∀ e, (salvarTransacao amb db t id).resultado = .error e →
      e ≠ .erroIniciarTransacao → e ≠ .limiteExcedido → e ≠ .tipoInvalido →
      e ≠ .erroFinalizarTransacao →
      (salvarTransacao amb db t id).tx = some .revertida) := by
  cases hb : amb.falhaBegin <;> cases hs : amb.falhaSelect <;> cases hi : amb.falhaInsert <;>
  cases hu : amb.falhaUpdate <;> cases hk : amb.falhaCommit <;> cases hc : db.clientes id <;>
  by_cases hd : t.tipo = "d" <;> by_cases hcr : t.tipo = "c" <;>
  simp [salvarTransacao, retornar, rollbackTx, hb, hs, hi, hu, hk, hc, hd, hcr]
  all_goals try split_ifs
  all_goals simp_all

/-- C4 (rollback on business rejection), evaluated where the code departs from it: account 1
with limit 1000 and balance -500, debit of 600, no store failure. The call begins a unit of
work, takes the locking read and returns `ErrLimiteExcedido`; the unit of work is then still
open (neither committed nor rolled back) and no `Rollback` was issued. -/
theorem salvarTransacao_limite_excedido_tx_aberta :
    (salvarTransacao {} (bancoUm (-500) 1000) ⟨600, "d", "compra"⟩ 1).resultado
      = .error .limiteExcedido ∧
    (salvarTransacao {} (bancoUm (-500) 1000) ⟨600, "d", "compra"⟩ 1).tx = some .aberta ∧
    (salvarTransacao {} (bancoUm (-500) 1000) ⟨600, "d", "compra"⟩ 1).tx ≠ some .revertida ∧
    (salvarTransacao {} (bancoUm (-500) 1000) ⟨600, "d", "compra"⟩ 1).ops
      = [.beginTx, .selectForUpdate 1] ∧
    Op.rollback ∉ (salvarTransacao {} (bancoUm (-500) 1000) ⟨600, "d", "compra"⟩ 1).ops := by
  decide

/-- The sibling error path does roll back: on an absent account the same call returns
`ErrClienteInvalido` with the unit of work rolled back. -/
theorem salvarTransacao_cliente_invalido_tx_revertida :
    (salvarTransacao {} (bancoUm (-500) 1000) ⟨600, "d", "compra"⟩ 9).resultado
      = .error .clienteInvalido ∧
    (salvarTransacao {} (bancoUm (-500) 1000) ⟨600, "d", "compra"⟩ 9).tx = some .revertida ∧
    (salvarTransacao {} (bancoUm (-500) 1000) ⟨600, "d", "compra"⟩ 9).ops
      = [.beginTx, .selectForUpdate 9, .rollback] := by
  decide

/-! ### C5: invalid kind -/

/-- C5 as stated fails: with kind `x` on the existing account 1 the call begins a unit of work
and takes the locking read before it returns `ErrTipoInvalido`; on the absent account 9 it
returns `ErrClienteInvalido`, not `ErrTipoInvalido`. -/
theorem tipo_invalido_toca_banco :
    ((salvarTransacao {} bancoInicial ⟨10, "x", "abc"⟩ 1).resultado = .error .tipoInvalido ∧
      (salvarTransacao {} bancoInicial ⟨10, "x", "abc"⟩ 1).ops ≠ [] ∧
      (salvarTransacao {} bancoInicial ⟨10, "x", "abc"⟩ 1).ops.take 2
        = [.beginTx, .selectForUpdate 1]) ∧
    ((salvarTransacao {} bancoInicial ⟨10, "x", "abc"⟩ 9).resultado = .error .clienteInvalido ∧
      (salvarTransacao {} bancoInicial ⟨10, "x", "abc"⟩ 9).resultado ≠ .error .tipoInvalido ∧
      (salvarTransacao {} bancoInicial ⟨10, "x", "abc"⟩ 9).ops.take 2
        = [.beginTx, .selectForUpdate 9]) := by
  decide

/-- C5 (invalid kind, amended). For every store state and account id, `salvarTransacao`
called with a kind that is neither `d` nor `c` returns an error, issues no insert, no update
and no commit, and leaves the committed store as it was. It does touch the store first: when
`BeginTx` succeeds the call begins a unit of work and takes the locking read of the account
row; when both succeed it fails with `ErrTipoInvalido` if the account exists and with
`ErrClienteInvalido` if it does not. -/
theorem salvarTransacao_tipo_invalido (amb : Ambiente) (db : Banco) (t : TransactionRequest)
    (id : Nat) (hd : t.tipo ≠ "d") (hc : t.tipo ≠ "c") :
    (∃ e, (salvarTransacao amb db t id).resultado = .error e) ∧
    (salvarTransacao amb db t id).banco = db ∧
    (∀ op ∈ (salvarTransacao amb db t id).ops, op.escreve = false) ∧
    (amb.falhaBegin = false →
      [.beginTx, .selectForUpdate id] <+: (salvarTransacao amb db t id).ops) ∧
    (amb.falhaBegin = false → amb.falhaSelect = false →
      (db.clientes id ≠ none → (salvarTransacao amb db t id).resultado = .error .tipoInvalido) ∧
      (db.clientes id = none →
        (salvarTransacao amb db t id).resultado = .error .clienteInvalido)) := by
  cases hb : amb.falhaBegin <;> cases hs : amb.falhaSelect <;> cases hcl : db.clientes id <;>
  simp [salvarTransacao, retornar, rollbackTx, hb, hs, hcl, hd, hc, Op.escreve, List.IsPrefix]

/-- C5 at kind `x` on account 1 of the initial store. -/
theorem salvarTransacao_tipo_invalido_witness :
    ("x" ≠ "d" ∧ "x" ≠ "c") ∧
    ((∃ e, (salvarTransacao {} bancoInicial ⟨10, "x", "abc"⟩ 1).resultado = .error e) ∧
    (salvarTransacao {} bancoInicial ⟨10, "x", "abc"⟩ 1).banco = bancoInicial ∧
    (∀ op ∈ (salvarTransacao {} bancoInicial ⟨10, "x", "abc"⟩ 1).ops, op.escreve = false) ∧
    ((false : Bool) = false →
      [.beginTx, .selectForUpdate 1] <+: (salvarTransacao {} bancoInicial ⟨10, "x", "abc"⟩ 1).ops) ∧
    ((false : Bool) = false → (false : Bool) = false →
      (bancoInicial.clientes 1 ≠ none →
        (salvarTransacao {} bancoInicial ⟨10, "x", "abc"⟩ 1).resultado = .error .tipoInvalido) ∧
      (bancoInicial.clientes 1 = none →
        (salvarTransacao {} bancoInicial ⟨10, "x", "abc"⟩ 1).resultado
          = .error .clienteInvalido))) :=
  ⟨⟨by decide, by decide⟩,
   salvarTransacao_tipo_invalido {} bancoInicial ⟨10, "x", "abc"⟩ 1 (by decide) (by decide)⟩

/-! ### C6: the account identifier at the boundary -/

/-- A character that is not a decimal digit makes `ParseUint` fail. -/
theorem parseUintLoop_nao_digito (cs : List Char) :
    ∀ n, (∃ c ∈ cs, ¬ ehDigito c) → parseUintLoop cs n = none := by
  induction cs with
  | nil => intro n h; obtain ⟨c, hc, _⟩ := h; cases hc
  | cons c cs ih =>
    intro n h
    unfold parseUintLoop
    by_cases hd : '0' ≤ c ∧ c ≤ '9'
    · rw [if_pos hd]
      have hresto : ∃ c' ∈ cs, ¬ ehDigito c' := by
        obtain ⟨c', hm, hn⟩ := h
        rcases List.mem_cons.mp hm with heq | hin
        · subst heq; exact absurd hd hn
        · exact ⟨c', hin, hn⟩
      simp only
      split_ifs
      · rfl
      · rfl
      · exact ih _ hresto
    · rw [if_neg hd]

/-- A path identifier with a character that is not a decimal digit does not parse. -/
theorem parseUint_nao_numerico (s : String) (h : ∃ c ∈ s.toList, ¬ ehDigito c) :
    parseUint s = none := by
  unfold parseUint
  split_ifs
  · rfl
  · exact parseUintLoop_nao_digito _ _ h

/-- The part of C6 that the code does: an identifier that does not parse (empty, with a
character that is not a digit, or above `maxUint64`) is answered 404 `ErrClienteInvalido` by
both handlers with no store call and without calling `salvarTransacao`. -/
theorem id_invalido_404 (amb : Ambiente) (db : Banco) (id : String) (corpo : Corpo)
    (h : parseUint id = none) :
    ((criarTransacao amb db id corpo).resposta = ⟨404, .erro .clienteInvalido⟩ ∧
      (criarTransacao amb db id corpo).ops = [] ∧
      (criarTransacao amb db id corpo).chamouSalvar = false) ∧
    ((criarExtrato amb db id).resposta = ⟨404, .erro .clienteInvalido⟩ ∧
      (criarExtrato amb db id).ops = []) := by
  simp [criarTransacao, criarExtrato, h]

/-- C6 (identifier resolution at the boundary), evaluated where the code departs from it: the
path identifier `6` is a number outside `minClientID..maxClientID`, yet `criarExtrato` opens a
connection and issues the query on `clientes`, and `criarTransacao` with a valid body opens a
connection and calls `salvarTransacao`, which begins a unit of work and takes the locking
read; the 404 comes from the store lookup. With an invalid body (amount 0) `criarTransacao`
answers 422, not 404. The constants `minClientID` and `maxClientID` are never compared with
the identifier. -/
theorem id_fora_da_faixa_chega_ao_banco :
    parseUint "6" = some 6 ∧ ¬ (minClientID ≤ 6 ∧ 6 ≤ maxClientID) ∧
    ((criarExtrato {} bancoInicial "6").resposta = ⟨404, .erro .clienteInvalido⟩ ∧
      (criarExtrato {} bancoInicial "6").ops = [.conectar, .selectCliente 6]) ∧
    ((criarTransacao {} bancoInicial "6" (.json ⟨1, "c", "x"⟩)).resposta
        = ⟨404, .erro .clienteInvalido⟩ ∧
      (criarTransacao {} bancoInicial "6" (.json ⟨1, "c", "x"⟩)).chamouSalvar = true ∧
      (criarTransacao {} bancoInicial "6" (.json ⟨1, "c", "x"⟩)).ops
        = [.conectar, .beginTx, .selectForUpdate 6, .rollback]) ∧
    (criarTransacao {} bancoInicial "6" (.json ⟨0, "c", "x"⟩)).resposta
      = ⟨422, .erro .valorInvalido⟩ := by
  decide

/-! ### C7: validation at the boundary -/

theorem goLen_eq_zero (s : String) : goLen s = 0 ↔ s = "" := by
  cases s with
  | mk cs =>
    unfold goLen
    rw [String.utf8ByteSize_mk, String.utf8Len_eq_zero]
    constructor
    · intro h; subst h; rfl
    · intro h; exact congrArg String.data h

theorem length_le_utf8Len (cs : List Char) : cs.length ≤ String.utf8Len cs := by
  induction cs with
  | nil => simp
  | cons c cs ih =>
    have := Char.utf8Size_pos c
    simp only [List.length_cons, String.utf8Len_cons]
    omega

/-- A string has at least as many bytes as characters. -/
theorem length_le_goLen (s : String) : s.length ≤ goLen s := by
  cases s with
  | mk cs =>
    unfold goLen
    rw [String.utf8ByteSize_mk]
    exact length_le_utf8Len cs

/-- C7 as stated fails on characters that take more than one byte: the description
`transação` has 9 characters (between 1 and 10) but 11 bytes, and the request, with a positive
amount and kind `c`, is answered 422 `ErrDescricaoInvalida` with no store call. -/
theorem descricao_nove_caracteres_rejeitada :
    "transação".length = 9 ∧ goLen "transação" = 11 ∧
    (criarTransacao {} bancoInicial "1" (.json ⟨1, "c", "transação"⟩)).resposta
      = ⟨422, .erro .descricaoInvalida⟩ ∧
    (criarTransacao {} bancoInicial "1" (.json ⟨1, "c", "transação"⟩)).ops = [] := by
  decide

/-- C7 (boundary validation, amended). For a path identifier that parses and a body that
decodes, `criarTransacao` proceeds to the store (its first store call, opening the
connection) if and only if the amount is positive, the kind is `d` or `c`, and the description
has at least 1 and at most 10 bytes (Go `len`, the UTF-8 length). Otherwise it answers 422 with
no store call and without calling `salvarTransacao`: `ErrValorInvalido` when the amount is not
positive; else `ErrTipoInvalido` when the kind is neither `d` nor `c`; else
`ErrDescricaoInvalida` when the description is empty or longer than 10 bytes, in particular
when it has more than 10 characters. -/
theorem criarTransacao_validacao (amb : Ambiente) (db : Banco) (id : String) (clienteID : Nat)
    (t : TransactionRequest) (hid : parseUint id = some clienteID) :
    ((criarTransacao amb db id (.json t)).ops.head? = some .conectar ↔
      0 < t.valor ∧ (t.tipo = "d" ∨ t.tipo = "c") ∧
        1 ≤ goLen t.descricao ∧ goLen t.descricao ≤ maxDescricaoLen) ∧
    (t.valor ≤ 0 →
      (criarTransacao amb db id (.json t)).resposta = ⟨422, .erro .valorInvalido⟩ ∧
      (criarTransacao amb db id (.json t)).ops = [] ∧
      (criarTransacao amb db id (.json t)).chamouSalvar = false) ∧
    (0 < t.valor → ¬ (t.tipo = "d" ∨ t.tipo = "c") →
      (criarTransacao amb db id (.json t)).resposta = ⟨422, .erro .tipoInvalido⟩ ∧
      (criarTransacao amb db id (.json t)).ops = [] ∧
      (criarTransacao amb db id (.json t)).chamouSalvar = false) ∧
    (0 < t.valor → (t.tipo = "d" ∨ t.tipo = "c") →
      (goLen t.descricao < 1 ∨ maxDescricaoLen < goLen t.descricao ∨
        maxDescricaoLen < t.descricao.length) →
      (criarTransacao amb db id (.json t)).resposta = ⟨422, .erro .descricaoInvalida⟩ ∧
      (criarTransacao amb db id (.json t)).ops = [] ∧
      (criarTransacao amb db id (.json t)).chamouSalvar = false) := by
  have hz := goLen_eq_zero t.descricao
  have hlen := length_le_goLen t.descricao
  by_cases hv : t.valor ≤ 0
  · have hv' : ¬ 0 < t.valor := by omega
    simp [criarTransacao, hid, hv, hv']
  · have hv' : 0 < t.valor := by omega
    by_cases ht : t.tipo = "d" ∨ t.tipo = "c"
    · have ht' : ¬ (t.tipo ≠ "d" ∧ t.tipo ≠ "c") := by
        rcases ht with h | h <;> simp [h]
      by_cases hdesc : t.descricao = "" ∨ goLen t.descricao > maxDescricaoLen
      · have hbad : ¬ (1 ≤ goLen t.descricao ∧ goLen t.descricao ≤ maxDescricaoLen) := by
          rcases hdesc with h | h
          · have := hz.mpr h; omega
          · omega
        simp only [criarTransacao, hid, if_neg hv, if_neg ht', if_pos hdesc]
        simp [hv', ht, hbad]
      · have hgood : 1 ≤ goLen t.descricao ∧ goLen t.descricao ≤ maxDescricaoLen := by
          have h1 : t.descricao ≠ "" := fun h => hdesc (Or.inl h)
          have h2 : ¬ goLen t.descricao > maxDescricaoLen := fun h => hdesc (Or.inr h)
          have h3 : goLen t.descricao ≠ 0 := fun h => h1 (hz.mp h)
          omega
        have hnot : ¬ (goLen t.descricao < 1 ∨ maxDescricaoLen < goLen t.descricao ∨
            maxDescricaoLen < t.descricao.length) := by omega
        simp only [criarTransacao, hid, if_neg hv, if_neg ht', if_neg hdesc]
        refine ⟨?_, fun h => absurd h hv, fun _ h => absurd ht h, fun _ _ h => absurd h hnot⟩
        constructor
        · intro _; exact ⟨hv', ht, hgood⟩
        · intro _
          split_ifs
          · rfl
          · split <;> rfl
    · have ht' : t.tipo ≠ "d" ∧ t.tipo ≠ "c" := by
        constructor
        · intro h; exact ht (Or.inl h)
        · intro h; exact ht (Or.inr h)
      simp only [criarTransacao, hid, if_neg hv, if_pos ht']
      simp [hv', ht]

/-- A body that cannot be read or does not decode into a `TransactionRequest` is answered 400
with no store call, whatever the identifier that parsed. -/
theorem corpo_nao_decodificado_400 (amb : Ambiente) (db : Banco) (id : String)
    (clienteID : Nat) (hid : parseUint id = some clienteID) :
    ((criarTransacao amb db id .ilegivel).resposta.status = 400 ∧
      (criarTransacao amb db id .ilegivel).ops = []) ∧
    ((criarTransacao amb db id .malformado).resposta.status = 400 ∧
      (criarTransacao amb db id .malformado).ops = []) := by
  simp [criarTransacao, hid]

/-- C7 at the description of length 11 of scenario 6: rejected as invalid description, with no
store call. -/
theorem criarTransacao_validacao_witness :
    parseUint "1" = some 1 ∧
    (((criarTransacao {} bancoInicial "1" (.json ⟨1, "c", "abcdefghijk"⟩)).ops.head?
        = some .conectar ↔
      (0 : Int) < 1 ∧ ("c" = "d" ∨ "c" = "c") ∧
        1 ≤ goLen "abcdefghijk" ∧ goLen "abcdefghijk" ≤ maxDescricaoLen) ∧
    ((1 : Int) ≤ 0 →
      (criarTransacao {} bancoInicial "1" (.json ⟨1, "c", "abcdefghijk"⟩)).resposta
        = ⟨422, .erro .valorInvalido⟩ ∧
      (criarTransacao {} bancoInicial "1" (.json ⟨1, "c", "abcdefghijk"⟩)).ops = [] ∧
      (criarTransacao {} bancoInicial "1" (.json ⟨1, "c", "abcdefghijk"⟩)).chamouSalvar
        = false) ∧
    ((0 : Int) < 1 → ¬ ("c" = "d" ∨ "c" = "c") →
      (criarTransacao {} bancoInicial "1" (.json ⟨1, "c", "abcdefghijk"⟩)).resposta
        = ⟨422, .erro .tipoInvalido⟩ ∧
      (criarTransacao {} bancoInicial "1" (.json ⟨1, "c", "abcdefghijk"⟩)).ops = [] ∧
      (criarTransacao {} bancoInicial "1" (.json ⟨1, "c", "abcdefghijk"⟩)).chamouSalvar
        = false) ∧
    ((0 : Int) < 1 → ("c" = "d" ∨ "c" = "c") →
      (goLen "abcdefghijk" < 1 ∨ maxDescricaoLen < goLen "abcdefghijk" ∨
        maxDescricaoLen < "abcdefghijk".length) →
      (criarTransacao {} bancoInicial "1" (.json ⟨1, "c", "abcdefghijk"⟩)).resposta
        = ⟨422, .erro .descricaoInvalida⟩ ∧
      (criarTransacao {} bancoInicial "1" (.json ⟨1, "c", "abcdefghijk"⟩)).ops = [] ∧
      (criarTransacao {} bancoInicial "1" (.json ⟨1, "c", "abcdefghijk"⟩)).chamouSalvar
        = false)) :=
  ⟨by decide,
   criarTransacao_validacao {} bancoInicial "1" 1 ⟨1, "c", "abcdefghijk"⟩ (by decide)⟩

/-! ### C10: the statement -/

/-- A row that the store returns before another is no older than it. -/
theorem antes_instante (d : Movimento → Nat) (x y : Movimento) (h : Antes d x y) :
    y.realizadaEm ≤ x.realizadaEm := by
  unfold Antes at h
  omega

theorem porCliente_perm (db : Banco) (d : Movimento → Nat) (id : Nat) :
    (db.porCliente d id).Perm (db.doCliente id) :=
  List.perm_insertionSort (Antes d) _

theorem porCliente_sorted (db : Banco) (d : Movimento → Nat) (id : Nat) :
    (db.porCliente d id).Pairwise (fun x y => y.realizadaEm ≤ x.realizadaEm) :=
  (List.sorted_insertionSort (Antes d) (db.doCliente id)).imp (antes_instante d _ _)

/-- The query returns exactly `min limite n` rows, `n` being the number of rows of the
client. -/
theorem ultimas_length (db : Banco) (d : Movimento → Nat) (id n : Nat) :
    (db.ultimas d id n).length = min n (db.doCliente id).length := by
  unfold Banco.ultimas
  rw [List.length_take, (porCliente_perm db d id).length_eq]

/-- The rows returned by the statement query and the rows it leaves out make up the rows of
the client, and no row left out is newer than a returned one. -/
theorem ultimas_resto (db : Banco) (d : Movimento → Nat) (id n : Nat) :
    (db.ultimas d id n ++ (db.porCliente d id).drop n).Perm (db.doCliente id) ∧
    ∀ x ∈ db.ultimas d id n, ∀ y ∈ (db.porCliente d id).drop n,
      y.realizadaEm ≤ x.realizadaEm := by
  unfold Banco.ultimas
  constructor
  · rw [List.take_append_drop]
    exact porCliente_perm db d id
  · have h := porCliente_sorted db d id
    rw [← List.take_append_drop n (db.porCliente d id)] at h
    exact (List.pairwise_append.mp h).2.2

theorem ultimas_sorted (db : Banco) (d : Movimento → Nat) (id n : Nat) :
    (db.ultimas d id n).Pairwise (fun x y => y.realizadaEm ≤ x.realizadaEm) :=
  (porCliente_sorted db d id).sublist (List.take_sublist _ _)

theorem ultimas_mem (db : Banco) (d : Movimento → Nat) (id n : Nat) (m : Movimento)
    (h : m ∈ db.ultimas d id n) : m ∈ db.transacoes ∧ m.clienteId = id := by
  have h1 : m ∈ db.porCliente d id := List.mem_of_mem_take h
  have h2 : m ∈ db.doCliente id := (porCliente_perm db d id).mem_iff.mp h1
  unfold Banco.doCliente at h2
  simpa using h2

/-- With pairwise distinct instants the rows of the client come strictly newest first. -/
theorem porCliente_estrito (db : Banco) (d : Movimento → Nat) (id : Nat)
    (hd : (db.doCliente id).Pairwise (fun x y => x.realizadaEm ≠ y.realizadaEm)) :
    (db.porCliente d id).Pairwise (fun x y => y.realizadaEm < x.realizadaEm) := by
  have hsym : Symmetric (fun x y : Movimento => x.realizadaEm ≠ y.realizadaEm) :=
    fun _ _ h => h.symm
  have h1 : (db.porCliente d id).Pairwise (fun x y => x.realizadaEm ≠ y.realizadaEm) :=
    ((porCliente_perm db d id).pairwise_iff (fun {x y} h => hsym h)).mpr hd
  refine ((porCliente_sorted db d id).and h1).imp ?_
  intro x y hxy
  have h2 := hxy.1
  have h3 := hxy.2
  omega

/-- With pairwise distinct instants the order of the rows does not depend on the tie-break
key of the store. -/
theorem porCliente_unico (db : Banco) (d1 d2 : Movimento → Nat) (id : Nat)
    (hd : (db.doCliente id).Pairwise (fun x y => x.realizadaEm ≠ y.realizadaEm)) :
    db.porCliente d1 id = db.porCliente d2 id := by
  haveI : IsAntisymm Movimento (fun x y => y.realizadaEm < x.realizadaEm) :=
    ⟨fun a b h1 h2 => absurd h1 (by omega)⟩
  exact List.eq_of_perm_of_sorted
    ((porCliente_perm db d1 id).trans (porCliente_perm db d2 id).symm)
    (porCliente_estrito db d1 id hd) (porCliente_estrito db d2 id hd)

/-- Whatever the tie-break key of the store, the rows come with the same sequence of
instants. -/
theorem porCliente_instantes (db : Banco) (d1 d2 : Movimento → Nat) (id : Nat) :
    (db.porCliente d1 id).map (fun m => m.realizadaEm)
      = (db.porCliente d2 id).map (fun m => m.realizadaEm) := by
  haveI : IsAntisymm Nat (fun a b => b ≤ a) := ⟨fun a b h1 h2 => Nat.le_antisymm h2 h1⟩
  have hp : ((db.porCliente d1 id).map (fun m => m.realizadaEm)).Perm
      ((db.porCliente d2 id).map (fun m => m.realizadaEm)) :=
    ((porCliente_perm db d1 id).trans (porCliente_perm db d2 id).symm).map _
  have hs1 : ((db.porCliente d1 id).map (fun m => m.realizadaEm)).Pairwise
      (fun a b => b ≤ a) := List.pairwise_map.mpr (porCliente_sorted db d1 id)
  have hs2 : ((db.porCliente d2 id).map (fun m => m.realizadaEm)).Pairwise
      (fun a b => b ≤ a) := List.pairwise_map.mpr (porCliente_sorted db d2 id)
  exact List.eq_of_perm_of_sorted hp hs1 hs2

/-- The response of `criarExtrato` for an existing account when no store call fails. -/
theorem criarExtrato_ok (amb : Ambiente) (db : Banco) (id : String) (clienteID : Nat)
    (conta : Conta) (hid : parseUint id = some clienteID)
    (hc : db.clientes clienteID = some conta) (hs : amb.semFalhas) :
    (criarExtrato amb db id).resposta =
      ⟨200, .extrato ⟨⟨conta.saldo, amb.agoraServidor, conta.limite⟩,
        (db.ultimas amb.desempate clienteID maxTransactions).map Movimento.paraTransacoes⟩⟩ ∧
    (criarExtrato amb db id).banco = db := by
  obtain ⟨hcon, _, hsel, _, _, _, hq, hr⟩ := hs
  simp [criarExtrato, hid, hc, hcon, hsel, hq, hr]

/-- C10 as stated fails on equal instants. Account 1 of `bancoEmpate` has two movements
stamped 7: the statement returns both, so the list is not strictly descending by
`realizadaEm`; and the query leaves their order to the store, so a second call on the store
left by the first, answered by the store with the other order of the tie, returns a different
list. -/
theorem extrato_com_empate :
    ((criarExtrato { desempate := menorValorPrimeiro } bancoEmpate "1").resposta =
        ⟨200, .extrato ⟨⟨300, 0, 1000⟩, [⟨100, "c", "a", 7⟩, ⟨200, "c", "b", 7⟩]⟩⟩ ∧
      ¬ List.Pairwise (fun x y : Transacoes => y.realizadaEm < x.realizadaEm)
        [⟨100, "c", "a", 7⟩, ⟨200, "c", "b", 7⟩]) ∧
    ((criarExtrato { desempate := maiorValorPrimeiro }
        (criarExtrato { desempate := menorValorPrimeiro } bancoEmpate "1").banco "1").resposta =
        ⟨200, .extrato ⟨⟨300, 0, 1000⟩, [⟨200, "c", "b", 7⟩, ⟨100, "c", "a", 7⟩]⟩⟩ ∧
      (criarExtrato { desempate := maiorValorPrimeiro }
        (criarExtrato { desempate := menorValorPrimeiro } bancoEmpate "1").banco "1").resposta
        ≠ (criarExtrato { desempate := menorValorPrimeiro } bancoEmpate "1").resposta) := by
  decide

/-- C10 (statement recency, amended). For every store state and every existing account, when
no store call fails and whatever order the store gives to rows of equal `realizadaEm`,
`criarExtrato` answers 200 with the balance and limit of the account and a movement list
that: is the projection of rows `rows` of the log, all of that account; has exactly
`min maxTransactions n` entries, `n` being the number of movements of the account, hence at
most 10; is sorted by `realizadaEm` descending, each entry being no older than the next one,
and strictly so when the movements of the account have pairwise distinct instants; consists
of the newest rows of the account (`rows` together with the rows left out `resto` are the
rows of the account, and no row left out is newer than a returned one). The call leaves the
store unchanged, and a second call on the resulting store, whatever order the store then
gives to equal instants, returns the same balance and limit and a list `rows2` with the same
sequence of instants, which is the same list when the movements of the account have pairwise
distinct instants. -/
theorem criarExtrato_recente (amb : Ambiente) (db : Banco) (id : String) (clienteID : Nat)
    (conta : Conta) (hid : parseUint id = some clienteID)
    (hc : db.clientes clienteID = some conta) (hs : amb.semFalhas) :
    ∃ rows resto : List Movimento,
      (criarExtrato amb db id).resposta =
        ⟨200, .extrato ⟨⟨conta.saldo, amb.agoraServidor, conta.limite⟩,
          rows.map Movimento.paraTransacoes⟩⟩ ∧
      (∀ m ∈ rows, m ∈ db.transacoes ∧ m.clienteId = clienteID) ∧
      (rows.map Movimento.paraTransacoes).length =
        min maxTransactions (db.transacoes.filter (fun m => m.clienteId = clienteID)).length ∧
      (rows.map Movimento.paraTransacoes).length ≤ maxTransactions ∧
      (rows.map Movimento.paraTransacoes).Pairwise
        (fun x y => y.realizadaEm ≤ x.realizadaEm) ∧
      ((db.transacoes.filter (fun m => m.clienteId = clienteID)).Pairwise
          (fun x y => x.realizadaEm ≠ y.realizadaEm) →
        (rows.map Movimento.paraTransacoes).Pairwise
          (fun x y => y.realizadaEm < x.realizadaEm)) ∧
      (rows ++ resto).Perm (db.transacoes.filter (fun m => m.clienteId = clienteID)) ∧
      (∀ x ∈ rows, ∀ y ∈ resto, y.realizadaEm ≤ x.realizadaEm) ∧
      (criarExtrato amb db id).banco = db ∧
      (∀ amb2 : Ambiente, amb2.semFalhas → ∃ rows2 : List Movimento,
        (criarExtrato amb2 (criarExtrato amb db id).banco id).resposta =
          ⟨200, .extrato ⟨⟨conta.saldo, amb2.agoraServidor, conta.limite⟩,
            rows2.map Movimento.paraTransacoes⟩⟩ ∧
        rows2.map (fun m => m.realizadaEm) = rows.map (fun m => m.realizadaEm) ∧
        ((db.transacoes.filter (fun m => m.clienteId = clienteID)).Pairwise
            (fun x y => x.realizadaEm ≠ y.realizadaEm) → rows2 = rows)) := by
  obtain ⟨hresp, hbanco⟩ := criarExtrato_ok amb db id clienteID conta hid hc hs
  obtain ⟨hperm, hnovo⟩ := ultimas_resto db amb.desempate clienteID maxTransactions
  have hlen := ultimas_length db amb.desempate clienteID maxTransactions
  refine ⟨db.ultimas amb.desempate clienteID maxTransactions,
    (db.porCliente amb.desempate clienteID).drop maxTransactions,
    hresp, ultimas_mem db amb.desempate clienteID maxTransactions, ?_, ?_, ?_, ?_, hperm, hnovo,
    hbanco, ?_⟩
  · rw [List.length_map]
    exact hlen
  · rw [List.length_map, hlen]
    exact Nat.min_le_left _ _
  · rw [List.pairwise_map]
    exact ultimas_sorted db amb.desempate clienteID maxTransactions
  · intro hd
    rw [List.pairwise_map]
    exact (porCliente_estrito db amb.desempate clienteID hd).sublist (List.take_sublist _ _)
  · intro amb2 hs2
    rw [hbanco]
    refine ⟨db.ultimas amb2.desempate clienteID maxTransactions,
      (criarExtrato_ok amb2 db id clienteID conta hid hc hs2).1, ?_, ?_⟩
    · unfold Banco.ultimas
      rw [List.map_take, List.map_take,
        porCliente_instantes db amb2.desempate amb.desempate clienteID]
    · intro hd
      unfold Banco.ultimas
      rw [porCliente_unico db amb2.desempate amb.desempate clienteID hd]

/-- C10 on account 1 of `bancoDoze`, which has twelve movements stamped 1 to 12: the ten
stamped 12 down to 3 are returned, the two oldest are left out. -/
theorem criarExtrato_recente_witness :
    (parseUint "1" = some 1 ∧ bancoDoze.clientes 1 = some ⟨78, 1000⟩ ∧
      Ambiente.semFalhas {}) ∧
    (∃ rows resto : List Movimento,
      (criarExtrato {} bancoDoze "1").resposta =
        ⟨200, .extrato ⟨⟨78, 0, 1000⟩, rows.map Movimento.paraTransacoes⟩⟩ ∧
      (∀ m ∈ rows, m ∈ bancoDoze.transacoes ∧ m.clienteId = 1) ∧
      (rows.map Movimento.paraTransacoes).length =
        min maxTransactions (bancoDoze.transacoes.filter (fun m => m.clienteId = 1)).length ∧
      (rows.map Movimento.paraTransacoes).length ≤ maxTransactions ∧
      (rows.map Movimento.paraTransacoes).Pairwise
        (fun x y => y.realizadaEm ≤ x.realizadaEm) ∧
      ((bancoDoze.transacoes.filter (fun m => m.clienteId = 1)).Pairwise
          (fun x y => x.realizadaEm ≠ y.realizadaEm) →
        (rows.map Movimento.paraTransacoes).Pairwise
          (fun x y => y.realizadaEm < x.realizadaEm)) ∧
      (rows ++ resto).Perm (bancoDoze.transacoes.filter (fun m => m.clienteId = 1)) ∧
      (∀ x ∈ rows, ∀ y ∈ resto, y.realizadaEm ≤ x.realizadaEm) ∧
      (criarExtrato {} bancoDoze "1").banco = bancoDoze ∧
      (∀ amb2 : Ambiente, amb2.semFalhas → ∃ rows2 : List Movimento,
        (criarExtrato amb2 (criarExtrato {} bancoDoze "1").banco "1").resposta =
          ⟨200, .extrato ⟨⟨78, amb2.agoraServidor, 1000⟩,
            rows2.map Movimento.paraTransacoes⟩⟩ ∧
        rows2.map (fun m => m.realizadaEm) = rows.map (fun m => m.realizadaEm) ∧
        ((bancoDoze.transacoes.filter (fun m => m.clienteId = 1)).Pairwise
            (fun x y => x.realizadaEm ≠ y.realizadaEm) → rows2 = rows))) ∧
    ((bancoDoze.transacoes.filter (fun m => m.clienteId = 1)).length = 12 ∧
      (criarExtrato {} bancoDoze "1").resposta =
        ⟨200, .extrato ⟨⟨78, 0, 1000⟩,
          [⟨12, "c", "l", 12⟩, ⟨11, "c", "k", 11⟩, ⟨10, "c", "j", 10⟩, ⟨9, "c", "i", 9⟩,
           ⟨8, "c", "h", 8⟩, ⟨7, "c", "g", 7⟩, ⟨6, "c", "f", 6⟩, ⟨5, "c", "e", 5⟩,
           ⟨4, "c", "d", 4⟩, ⟨3, "c", "c", 3⟩]⟩⟩) :=
  ⟨⟨by decide, by decide, by decide⟩,
   criarExtrato_recente {} bancoDoze "1" 1 ⟨78, 1000⟩ (by decide) (by decide) (by decide),
   by decide, by decide⟩

/-- Scenario 6: a description of length 11 is answered 422 `ErrDescricaoInvalida`, with no
store call. -/
theorem cenario_seis :
    (criarTransacao {} bancoInicial "1" (.json ⟨1, "c", "abcdefghijk"⟩)).resposta
      = ⟨422, .erro .descricaoInvalida⟩ ∧
    (criarTransacao {} bancoInicial "1" (.json ⟨1, "c", "abcdefghijk"⟩)).ops = [] := by
  decide

/-- Scenario 4 in either serial order: of two debits of 600 on an account with limit 1000 and
balance 0 applied one after the other, the first succeeds with balance -600 and the second
fails with `ErrLimiteExcedido`, the balance staying -600. -/
theorem cenario_quatro_em_serie :
    (salvarTransacao {} (bancoUm 0 1000) ⟨600, "d", "a"⟩ 1).resultado = .ok ⟨1000, -600⟩ ∧
    (salvarTransacao {} (salvarTransacao {} (bancoUm 0 1000) ⟨600, "d", "a"⟩ 1).banco
      ⟨600, "d", "b"⟩ 1).resultado = .error .limiteExcedido ∧
    (salvarTransacao {} (salvarTransacao {} (bancoUm 0 1000) ⟨600, "d", "a"⟩ 1).banco
      ⟨600, "d", "b"⟩ 1).banco.clientes 1 = some ⟨-600, 1000⟩ := by
  decide

end Rinha
